import Mathlib

/-!
Shallow embedding of `runner/ssh/runner.go` from opsani/golang-exec.

The Go file implements a remote-command session over SSH:
connection-descriptor normalization (`toConnection`), session construction
(`New`), stream attachment (`SetStdoutWriter`, `StdoutPipe`, ...),
execution (`Run`, `Start`, `Wait`), teardown (`Close`), and the structured
`Error` envelope.

External collaborators (the `script` package, the `ssh` transport, the
local terminal, the file system) are modelled by passing the outcome of
each external call in explicitly as an environment value; the control flow
acting on those outcomes is translated from the Go source statement by
statement.
-/

namespace GolangExec

/-- Modelled from the spec: the `script.Script` type lives in the
repository's `script` package, which is not part of the source under
analysis.  Per the spec it carries a construction-time parse-error flag
(`Script.Error`, here `err`) and its own invocation command line
(`Script.Command()`, here `cmd`); the argument-bound body is rendered
through `NewReader`, whose outcome is part of the environment. -/
structure Script where
  err : Option String
  cmd : String
deriving DecidableEq, Repr

/-- `type Connection struct` from runner.go.  The Go field `Type`
(a reserved word in Lean) is rendered `Typ`; `Port` is `uint16`,
modelled as a `Nat` kept below 2^16 by the operations. -/
structure Connection where
  Typ : String
  Host : String
  Port : Nat
  User : String
  Password : String
  Insecure : Bool
deriving DecidableEq, Repr

instance : Inhabited Connection := ⟨⟨"", "", 0, "", "", false⟩⟩

/-- `type Error struct` from runner.go: the structured error envelope. -/
structure Error where
  script : Script
  command : String
  exitCode : Int
  err : String
deriving DecidableEq, Repr

/-- `func (e *Error) Script() *script.Script` -/
def Error.Script (e : Error) : Script := e.script

/-- `func (e *Error) Command() string` -/
def Error.Command (e : Error) : String := e.command

/-- `func (e *Error) ExitCode() int` -/
def Error.ExitCode (e : Error) : Int := e.exitCode

/-- A Go `error` value as returned through the `error` interface: either
the package's structured `*Error` envelope or some other error value
(modelled by its message). -/
inductive GoErr where
  | envelope (e : Error)
  | raw (msg : String)
deriving DecidableEq, Repr

/-- `type Runner struct` from runner.go.  The `client` and `session`
pointers are modelled by nil-ness flags (`hasClient`, `hasSession`); the
channel's stream fields `session.Stdout` / `session.Stderr` by set-flags. -/
structure Runner where
  script : Script
  command : String
  hasClient : Bool
  hasSession : Bool
  sessionStdoutSet : Bool
  sessionStderrSet : Bool
  running : Bool
  exitCode : Int
deriving DecidableEq, Repr

/-- `func (r *Runner) ExitCode() int` -/
def Runner.ExitCode (r : Runner) : Int := r.exitCode

/- ### Connection-descriptor normalization (`toConnection`) -/

/-- The accumulating loop of Go `strconv.ParseUint(s, 10, 16)` over the
characters of `s`: `none` as soon as a non-digit appears. -/
def decDigits : List Char → Option Nat → Option Nat
  | _, none => none
  | [], some n => some n
  | c :: cs, some n =>
      if c.isDigit then decDigits cs (some (n * 10 + (c.toNat - 48)))
      else decDigits cs none

/-- Go `strconv.ParseUint(s, 10, 16)`: rejects the empty string, any
non-digit character, and any value that does not fit in 16 bits. -/
def parseUint16 (s : String) : Option Nat :=
  if s.data.isEmpty then none
  else match decDigits s.data (some 0) with
    | some n => if n < 65536 then some n else none
    | none => none

/-- The `case "Port"` arm of `toConnection`: parse failure degrades to 0. -/
def parsePort (s : String) : Nat := (parseUint16 s).getD 0

/-- Go `strings.ToLower` (ASCII-faithful). -/
def lowerStr (s : String) : String := ⟨s.data.map Char.toLower⟩

/-- Go `strconv.ParseBool` applied to an already-lowercased string, as in
`strconv.ParseBool(strings.ToLower(...))`: of ParseBool's accepted
literals only the lowercase ones can appear after `ToLower`. -/
def parseBoolLower (s : String) : Option Bool :=
  let l := lowerStr s
  if l = "1" ∨ l = "t" ∨ l = "true" then some true
  else if l = "0" ∨ l = "f" ∨ l = "false" then some false
  else none

/-- The `case "Insecure"` arm of `toConnection`: parse failure degrades
to `false`. -/
def parseInsecure (s : String) : Bool := (parseBoolLower s).getD false

/-- One iteration of the `for iter.Next()` loop in `toConnection`:
the `switch iter.Key().String()` statement. -/
def connStep (c : Connection) (kv : String × String) : Connection :=
  match kv.1 with
  | "Type" => { c with Typ := kv.2 }
  | "Host" => { c with Host := kv.2 }
  | "Port" => { c with Port := parsePort kv.2 }
  | "User" => { c with User := kv.2 }
  | "Password" => { c with Password := kv.2 }
  | "Insecure" => { c with Insecure := parseInsecure kv.2 }
  | _ => c

/-- The `v.Kind() == reflect.Map` branch of `toConnection`: fold the
switch over the map's entries, starting from the zero `Connection`. -/
def toConnectionMap (kvs : List (String × String)) : Connection :=
  kvs.foldl connStep default

/-- The `v.Kind() == reflect.Struct` branch of `toConnection`: each field
is read back by name; `uint16(v.FieldByName("Port").Uint())` truncates to
16 bits. -/
def toConnectionStruct (c : Connection) : Connection :=
  { Typ := c.Typ, Host := c.Host, Port := c.Port % 65536,
    User := c.User, Password := c.Password, Insecure := c.Insecure }

/-- The `connection interface{}` argument of `New`: a caller passes
either the typed struct or a string-keyed map. -/
inductive ConnInput where
  | struct (c : Connection)
  | map (kvs : List (String × String))
deriving DecidableEq, Repr

/-- `func toConnection(connection interface{}) *Connection` -/
def toConnection : ConnInput → Connection
  | .struct c => toConnectionStruct c
  | .map kvs => toConnectionMap kvs

/- ### Session construction (`New`) -/

/-- The outcomes of the external calls made by `New`, in source order:
`s.NewReader(arguments)`, `ioutil.ReadAll(scriptReader)`,
`homedir.Expand("~/.ssh/known_hosts")`, `knownhosts.New(f)`,
`ssh.Dial("tcp", address, config)`, `client.NewSession()`. -/
structure NewEnv where
  readerResult : Except String Unit
  readAllResult : Except String String
  homedirResult : Except String String
  knownHostsResult : Except String Unit
  dialResult : Except String Unit
  sessionResult : Except String Unit
deriving Repr

/-- The observable outcome of `New`: the two Go return values, plus a
trace flag recording whether `ssh.Dial` was reached. -/
structure NewOut where
  runner : Option Runner
  err : Option GoErr
  dialAttempted : Bool
deriving DecidableEq, Repr

/-- The tail of `New` once the host-key callback is in place:
`ssh.Dial`, `client.NewSession()`, and assembly of the `Runner`. -/
def newDialPhase (s : Script) (command : String) (env : NewEnv) : NewOut :=
  match env.dialResult with
  | .error de =>
      { runner := none,
        err := some (.envelope ⟨s, "", -1,
          "[golang-exec/runner/ssh/New()] cannot dial host: " ++ de ++ "\n"⟩),
        dialAttempted := true }
  | .ok _ =>
    match env.sessionResult with
    | .error ce =>
        { runner := none,
          err := some (.envelope ⟨s, "", -1,
            "[golang-exec/runner/ssh/New()] cannot open session: " ++ ce ++ "\n"⟩),
          dialAttempted := true }
    | .ok _ =>
        { runner := some
            { script := s, command := command,
              hasClient := true, hasSession := true,
              sessionStdoutSet := false, sessionStderrSet := false,
              running := false, exitCode := 0 },
          err := none,
          dialAttempted := true }

/-- `func New(connection interface{}, s *script.Script, arguments interface{})
(*Runner, error)`, translated branch by branch; each external call's
outcome is read from `env`. -/
def New (connection : ConnInput) (s : Script) (env : NewEnv) : NewOut :=
  match s.err with
  | some se =>
      { runner := none,
        err := some (.envelope ⟨s, "", -1,
          "[golang-exec/runner/ssh/New()] script failed to parse: " ++ se ++ "\n"⟩),
        dialAttempted := false }
  | none =>
    match env.readerResult with
    | .error re =>
        { runner := none,
          err := some (.envelope ⟨s, "", -1,
            "[golang-exec/runner/ssh/New()] cannot create stdin reader: " ++ re ++ "\n"⟩),
          dialAttempted := false }
    | .ok _ =>
      -- `var script string; if b, err := ioutil.ReadAll(...); err == nil { script = string(b) }`
      let body := match env.readAllResult with
        | .ok b => b
        | .error _ => ""
      let c := toConnection connection
      let command := s.cmd ++ body
      if c.Insecure then newDialPhase s command env
      else
        match env.homedirResult with
        | .error he =>
            { runner := none,
              err := some (.envelope ⟨s, "", -1,
                "[golang-exec/runner/ssh/New()] cannot find home directory of current user: " ++ he ++ "\n"⟩),
              dialAttempted := false }
        | .ok _ =>
          match env.knownHostsResult with
          | .error ke =>
              { runner := none,
                err := some (.envelope ⟨s, "", -1,
                  "[golang-exec/runner/ssh/New()] cannot access known-hosts file: " ++ ke ++ "\n"⟩),
                dialAttempted := false }
          | .ok _ => newDialPhase s command env

/- ### Stream attachment -/

/-- `func (r *Runner) SetStdoutWriter(stdout io.Writer)` -/
def Runner.setStdoutWriter (r : Runner) : Runner :=
  { r with sessionStdoutSet := true }

/-- `func (r *Runner) SetStderrWriter(stderr io.Writer)` -/
def Runner.setStderrWriter (r : Runner) : Runner :=
  { r with sessionStderrSet := true }

/-- `func (r *Runner) StdoutPipe() (io.Reader, error)`: `res` is the
outcome of `r.session.StdoutPipe()`. -/
def Runner.stdoutPipe (r : Runner) (res : Except String Unit) : Runner × Option GoErr :=
  match res with
  | .error e =>
      let r2 := { r with exitCode := -1 }
      (r2, some (.envelope ⟨r.script, "", r2.exitCode,
        "[golang-exec/runner/ssh/StdoutPipe()] cannot create stdout reader: " ++ e ++ "\n"⟩))
  | .ok _ => (r, none)

/-- `func (r *Runner) StderrPipe() (io.Reader, error)`: `res` is the
outcome of `r.session.StderrPipe()`. -/
def Runner.stderrPipe (r : Runner) (res : Except String Unit) : Runner × Option GoErr :=
  match res with
  | .error e =>
      let r2 := { r with exitCode := -1 }
      (r2, some (.envelope ⟨r.script, "", r2.exitCode,
        "[golang-exec/runner/ssh/StderrPipe()] cannot create stderr reader: " ++ e ++ "\n"⟩))
  | .ok _ => (r, none)

/- ### Execution (`Run`, `Start`, `Wait`) and teardown (`Close`) -/

/-- RFC 4254 / `golang.org/x/crypto/ssh` terminal-mode opcodes used by
runner.go. -/
def ECHO : Nat := 53

/-- `ssh.ECHOCTL` -/
def ECHOCTL : Nat := 60

/-- `ssh.TTY_OP_ISPEED` -/
def TTY_OP_ISPEED : Nat := 128

/-- `ssh.TTY_OP_OSPEED` -/
def TTY_OP_OSPEED : Nat := 129

/-- The `modes := ssh.TerminalModes{...}` literal at the top of `Run`,
in source order.  Note the source pairs `ssh.ECHO: 1` with the comment
"disable echoing". -/
def terminalModes : List (Nat × Nat) :=
  [(ECHOCTL, 0), (ECHO, 1), (TTY_OP_ISPEED, 14400), (TTY_OP_OSPEED, 14400)]

/-- The outcome of `r.session.Run(command)` / `r.session.Wait()`:
success, an `*ssh.ExitError` carrying the remote exit status (with the
error's message), or any other error. -/
inductive ExecResult where
  | success
  | exitErr (status : Nat) (msg : String)
  | otherErr (msg : String)
deriving DecidableEq, Repr

/-- The outcomes of the external calls made by `Run`, in source order:
`terminal.IsTerminal(fd)`, `terminal.MakeRaw(fd)`,
`terminal.GetSize(fd)` (width, height), `r.session.RequestPty(...)`,
`r.session.Run(r.command)`. -/
structure RunEnv where
  isTerminal : Bool
  makeRaw : Except String Unit
  getSize : Except String (Nat × Nat)
  requestPty : Except String Unit
  runResult : ExecResult
deriving Repr

/-- A pseudo-terminal request as issued to `session.RequestPty`. -/
structure PtyRequest where
  term : String
  height : Nat
  width : Nat
  modes : List (Nat × Nat)
deriving DecidableEq, Repr

/-- Trace of `Run`'s local-terminal and PTY side effects: whether
`terminal.MakeRaw` ran, whether the deferred `terminal.Restore` ran, and
the pseudo-terminal request issued (if any). -/
structure RunEffects where
  rawModeEntered : Bool
  rawModeRestored : Bool
  ptyRequested : Option PtyRequest
deriving DecidableEq, Repr

/-- The tail of `Run` after terminal negotiation: `r.session.Run(r.command)`
and the exit-status classification. -/
def runExec (r : Runner) (env : RunEnv) (eff : RunEffects) :
    Runner × Option GoErr × RunEffects :=
  match env.runResult with
  | .success => ({ r with exitCode := 0 }, none, eff)
  | .exitErr status msg =>
      let r2 := { r with exitCode := (status : Int) }
      (r2, some (.envelope ⟨r.script, r.command, r2.exitCode,
        "[golang-exec/runner/ssh/Run()] runner failed: " ++ msg ++ "\n"⟩), eff)
  | .otherErr msg =>
      let r2 := { r with exitCode := -1 }
      (r2, some (.envelope ⟨r.script, r.command, r2.exitCode,
        "[golang-exec/runner/ssh/Run()] cannot execute runner: " ++ msg ++ "\n"⟩), eff)

/-- `func (r *Runner) Run() error`.  When stdin is a terminal, the three
setup calls `MakeRaw`, `GetSize`, `RequestPty` each `return err` raw on
failure; the `defer terminal.Restore(...)` is armed only once `MakeRaw`
has succeeded, so it runs on every later return path. -/
def Runner.run (r : Runner) (env : RunEnv) : Runner × Option GoErr × RunEffects :=
  if env.isTerminal then
    match env.makeRaw with
    | .error e => (r, some (.raw e), ⟨false, false, none⟩)
    | .ok _ =>
      match env.getSize with
      | .error e => (r, some (.raw e), ⟨true, true, none⟩)
      | .ok (termWidth, termHeight) =>
        let req : PtyRequest := ⟨"xterm-256color", termHeight, termWidth, terminalModes⟩
        match env.requestPty with
        | .error e => (r, some (.raw e), ⟨true, true, some req⟩)
        | .ok _ => runExec r env ⟨true, true, some req⟩
  else
    runExec r env ⟨false, false, none⟩

/-- `func (r *Runner) Start() error`: `res` is the outcome of
`r.session.Start(r.command)`. -/
def Runner.start (r : Runner) (res : Except String Unit) : Runner × Option GoErr :=
  match res with
  | .error e =>
      let r2 := { r with exitCode := -1 }
      (r2, some (.envelope ⟨r.script, r.command, r2.exitCode,
        "[golang-exec/runner/ssh/Start()] cannot start runner: " ++ e ++ "\n"⟩))
  | .ok _ => ({ r with running := true }, none)

/-- `func (r *Runner) Wait() error`: `res` is the outcome of
`r.session.Wait()`; `r.running = false` is assigned before the error is
inspected. -/
def Runner.wait (r : Runner) (res : ExecResult) : Runner × Option GoErr :=
  let r1 := { r with running := false }
  match res with
  | .success => ({ r1 with exitCode := 0 }, none)
  | .exitErr status msg =>
      let r2 := { r1 with exitCode := (status : Int) }
      (r2, some (.envelope ⟨r.script, r.command, r2.exitCode,
        "[golang-exec/runner/ssh/Wait()] runner failed: " ++ msg ++ "\n"⟩))
  | .otherErr msg =>
      let r2 := { r1 with exitCode := -1 }
      (r2, some (.envelope ⟨r.script, r.command, r2.exitCode,
        "[golang-exec/runner/ssh/Wait()] runner failed: " ++ msg ++ "\n"⟩))

/-- The outcomes of the best-effort teardown calls inside `Close`:
`r.session.Signal(ssh.SIGTERM)`, `r.session.Close()`, `r.client.Close()`.
All three are discarded by the source. -/
structure CloseEnv where
  signalResult : Except String Unit
  sessionCloseResult : Except String Unit
  clientCloseResult : Except String Unit
deriving Repr

/-- `func (r *Runner) Close() error`: signals when `running`, closes the
session and the client when present, discards every sub-result, assigns
no `Runner` field, and returns `nil`. -/
def Runner.close (r : Runner) (env : CloseEnv) : Runner × Option GoErr :=
  let _ := if r.running then some env.signalResult else none
  let _ := if r.hasSession then some env.sessionCloseResult else none
  let _ := if r.hasClient then some env.clientCloseResult else none
  (r, none)

/- ### Auxiliary predicates and concrete sample values -/

/-- Whether an external call succeeded. -/
def exceptOk {ε α : Type} : Except ε α → Bool
  | .error _ => false
  | .ok _ => true

/-- `Run` reaches the `r.session.Run(r.command)` call exactly when stdin
is not a terminal, or all three terminal-setup calls succeed. -/
def reachesExec (env : RunEnv) : Bool :=
  if env.isTerminal then
    exceptOk env.makeRaw && exceptOk env.getSize && exceptOk env.requestPty
  else true

/-- The six field names recognised by the map branch of `toConnection`. -/
def connectionKeys : List String :=
  ["Type", "Host", "Port", "User", "Password", "Insecure"]

/-- A well-formed sample script. -/
def sampleScript : Script := { err := none, cmd := "powershell.exe " }

/-- A script carrying a construction-time parse error. -/
def badScript : Script := { err := some "parse failed", cmd := "" }

/-- The envelope `New` builds for `badScript`. -/
def badScriptErr : GoErr :=
  .envelope ⟨badScript, "", -1,
    "[golang-exec/runner/ssh/New()] script failed to parse: parse failed\n"⟩

/-- A sample connection record with `Insecure` set. -/
def sampleConnection : Connection :=
  { Typ := "ssh", Host := "host1", Port := 22,
    User := "admin", Password := "pw", Insecure := true }

/-- A struct-form descriptor with `Insecure` set. -/
def insecureConn : ConnInput := .struct sampleConnection

/-- A `New` environment in which every external call succeeds. -/
def envAllOk : NewEnv :=
  { readerResult := .ok (), readAllResult := .ok "body",
    homedirResult := .ok "/home/u/.ssh/known_hosts",
    knownHostsResult := .ok (), dialResult := .ok (), sessionResult := .ok () }

/-- A freshly constructed sample runner. -/
def sampleRunner : Runner :=
  { script := sampleScript, command := "powershell.exe body",
    hasClient := true, hasSession := true,
    sessionStdoutSet := false, sessionStderrSet := false,
    running := false, exitCode := 0 }

/-- A runner that recorded exit code 7 in an earlier execution. -/
def runner7 : Runner := { sampleRunner with exitCode := 7 }

/-- A runner whose remote command has been started and not waited on. -/
def runningRunner : Runner := { sampleRunner with running := true }

/-- A `Run` environment: stdin is a terminal and `terminal.MakeRaw` fails. -/
def envMakeRawFails : RunEnv :=
  { isTerminal := true, makeRaw := .error "makeraw failed",
    getSize := .ok (80, 24), requestPty := .ok (), runResult := .success }

/-- A `Run` environment: stdin is a terminal and `terminal.GetSize` fails. -/
def envGetSizeFails : RunEnv :=
  { isTerminal := true, makeRaw := .ok (),
    getSize := .error "getsize failed", requestPty := .ok (), runResult := .success }

/-- A `Run` environment: stdin is a terminal, terminal setup succeeds with
geometry 120x40, and the remote command exits 0. -/
def envTerminalOk : RunEnv :=
  { isTerminal := true, makeRaw := .ok (),
    getSize := .ok (120, 40), requestPty := .ok (), runResult := .success }

/-- A `Run` environment: stdin is not a terminal; remote exit status 5. -/
def envBatchExit5 : RunEnv :=
  { isTerminal := false, makeRaw := .ok (), getSize := .ok (0, 0),
    requestPty := .ok (), runResult := .exitErr 5 "Process exited with status 5" }

/-- A `Close` environment in which every teardown call succeeds. -/
def closeEnvOk : CloseEnv :=
  { signalResult := .ok (), sessionCloseResult := .ok (), clientCloseResult := .ok () }

/-! ## Theorems -/

/-- Shape lemma for the dial phase of `New`: it either yields a runner and
no error, or no runner and an envelope with exit code `-1`. -/
theorem newDialPhase_shape (s : Script) (command : String) (env : NewEnv) :
    (∃ r, newDialPhase s command env =
      { runner := some r, err := none, dialAttempted := true }) ∨
    (∃ e, newDialPhase s command env =
      { runner := none, err := some (GoErr.envelope e), dialAttempted := true } ∧
      e.exitCode = -1) := by
  unfold newDialPhase
  rcases hd : env.dialResult with de | u
  · right; exact ⟨_, rfl, rfl⟩
  · rcases hc : env.sessionResult with ce | v
    · right; exact ⟨_, rfl, rfl⟩
    · left; exact ⟨_, rfl⟩

/-- Shape lemma for `New`: either a runner and no error, or no runner and
an envelope with exit code `-1`. -/
theorem New_shape (conn : ConnInput) (s : Script) (env : NewEnv) :
    (∃ r, (New conn s env).runner = some r ∧ (New conn s env).err = none) ∨
    (∃ e, (New conn s env).runner = none ∧
      (New conn s env).err = some (GoErr.envelope e) ∧ e.exitCode = -1) := by
  unfold New
  rcases hs : s.err with _ | se
  · rcases hr : env.readerResult with re | u
    · right; exact ⟨_, rfl, rfl, rfl⟩
    · simp only
      split
      · rcases newDialPhase_shape s (s.cmd ++ match env.readAllResult with
          | .ok b => b | .error _ => "") env with ⟨r, hdp⟩ | ⟨e, hdp, he⟩
        · left; rw [hdp]; exact ⟨r, rfl, rfl⟩
        · right; rw [hdp]; exact ⟨e, rfl, rfl, he⟩
      · rcases hh : env.homedirResult with he | v
        · right; exact ⟨_, rfl, rfl, rfl⟩
        · rcases hk : env.knownHostsResult with ke | w
          · right; exact ⟨_, rfl, rfl, rfl⟩
          · rcases newDialPhase_shape s (s.cmd ++ match env.readAllResult with
              | .ok b => b | .error _ => "") env with ⟨r, hdp⟩ | ⟨e, hdp, hex⟩
            · left; rw [hdp]; exact ⟨r, rfl, rfl⟩
            · right; rw [hdp]; exact ⟨e, rfl, rfl, hex⟩
  · right; exact ⟨_, rfl, rfl, rfl⟩

/-- A script parse error makes `New` return before `ssh.Dial` is reached. -/
theorem New_parse_error_no_dial (conn : ConnInput) (s : Script) (env : NewEnv)
    (h : s.err.isSome) : (New conn s env).dialAttempted = false := by
  unfold New
  rcases hs : s.err with _ | se
  · simp [hs] at h
  · rfl

/-- C8: every failing construction (script parse error, reader-creation
failure, known-hosts resolution failure, dial failure, channel-open
failure) makes `New` return a `nil` runner together with an `Error`
envelope whose exit code is `-1`; for a script with a construction-time
parse error this happens before any dial attempt. -/
theorem new_failure_nil_session_exit_neg1 (conn : ConnInput) (s : Script)
    (env : NewEnv) (g : GoErr) (h : (New conn s env).err = some g) :
    (New conn s env).runner = none ∧
    (∃ e, g = GoErr.envelope e ∧ e.exitCode = -1) ∧
    (s.err.isSome → (New conn s env).dialAttempted = false) := by
  rcases New_shape conn s env with ⟨r, _, he⟩ | ⟨e, hn, he, hx⟩
  · rw [he] at h; cases h
  · rw [he] at h
    refine ⟨hn, ⟨e, ?_, hx⟩, fun hp => New_parse_error_no_dial conn s env hp⟩
    injection h with h2
    exact h2.symm

/-- Witness for C8 at the concrete parse-failed script. -/
theorem new_failure_nil_session_exit_neg1_witness :
    (New insecureConn badScript envAllOk).runner = none ∧
    (∃ e, badScriptErr = GoErr.envelope e ∧ e.exitCode = -1) ∧
    (badScript.err.isSome → (New insecureConn badScript envAllOk).dialAttempted = false) :=
  new_failure_nil_session_exit_neg1 insecureConn badScript envAllOk badScriptErr rfl

/-- C10: when the rendered-script reader is created but reading its body
fails, `New` swallows the read error: the result is the same as if the
body had read back empty, so the command is the script's command-line
prefix concatenated with an empty body, and construction proceeds to the
dial (and succeeds when every later step succeeds). -/
theorem new_swallows_readall_error :
    (∀ (conn : ConnInput) (s : Script) (env : NewEnv) (e : String),
      New conn s { env with readAllResult := Except.error e } =
      New conn s { env with readAllResult := Except.ok "" }) ∧
    (∀ (conn : ConnInput) (s : Script) (e : String), s.err = none →
      (New conn s { envAllOk with readAllResult := Except.error e }).dialAttempted = true ∧
      (New conn s { envAllOk with readAllResult := Except.error e }).err = none ∧
      (∃ r, (New conn s { envAllOk with readAllResult := Except.error e }).runner = some r ∧
        r.command = s.cmd ++ "")) := by
  constructor
  · intro conn s env e
    rfl
  · intro conn s e h
    unfold New newDialPhase
    rw [h]
    simp only
    rcases hi : (toConnection conn).Insecure
    · exact ⟨rfl, rfl, _, rfl, rfl⟩
    · exact ⟨rfl, rfl, _, rfl, rfl⟩

/-- Witness for C10 at a concrete script and environment. -/
theorem new_swallows_readall_error_witness :
    (New insecureConn sampleScript { envAllOk with readAllResult := Except.error "read failed" }).dialAttempted = true ∧
    (New insecureConn sampleScript { envAllOk with readAllResult := Except.error "read failed" }).err = none ∧
    (∃ r, (New insecureConn sampleScript { envAllOk with readAllResult := Except.error "read failed" }).runner = some r ∧
      r.command = sampleScript.cmd ++ "") :=
  new_swallows_readall_error.2 insecureConn sampleScript "read failed" rfl

/-- C3 counterexample: `Close` on a runner whose command was started and
not waited on returns `nil` but leaves the `running` flag set. -/
theorem close_leaves_running_set :
    (runningRunner.close closeEnvOk).2 = none ∧
    (runningRunner.close closeEnvOk).1.running = true :=
  ⟨rfl, rfl⟩

/-- C3 (amended): `Close` never fails and is idempotent — it returns
`nil` in every session state and for every outcome of its best-effort
teardown calls — but it leaves the `running` flag (and all other runner
fields) unchanged rather than clearing it. -/
theorem close_always_nil_state_unchanged (r : Runner) (env : CloseEnv) :
    (r.close env).2 = none ∧ (r.close env).1 = r :=
  ⟨rfl, rfl⟩

/-- The execution tail of `Run` only ever assigns `exitCode`, never the
`running` flag. -/
theorem runExec_preserves_running (r : Runner) (env : RunEnv) (eff : RunEffects) :
    (runExec r env eff).1.running = r.running := by
  unfold runExec; cases env.runResult <;> rfl

/-- C5: a successful `Start` sets `running = true`; every other session
operation (stream attachment, `Run`, `Close`) leaves `running` unchanged,
so it remains `true` until `Wait`; and `Wait` sets `running = false` on
both its success and failure paths. -/
theorem start_wait_running_flag :
    (∀ r : Runner, (r.start (Except.ok ())).1.running = true) ∧
    (∀ (r : Runner) (p : Except String Unit), (r.stdoutPipe p).1.running = r.running) ∧
    (∀ (r : Runner) (p : Except String Unit), (r.stderrPipe p).1.running = r.running) ∧
    (∀ r : Runner, r.setStdoutWriter.running = r.running) ∧
    (∀ r : Runner, r.setStderrWriter.running = r.running) ∧
    (∀ (r : Runner) (env : RunEnv), (r.run env).1.running = r.running) ∧
    (∀ (r : Runner) (env : CloseEnv), (r.close env).1.running = r.running) ∧
    (∀ (r : Runner) (res : ExecResult), (r.wait res).1.running = false) := by
  refine ⟨fun r => rfl, ?_, ?_, fun r => rfl, fun r => rfl, ?_, fun r env => rfl, ?_⟩
  · intro r p; cases p <;> rfl
  · intro r p; cases p <;> rfl
  · intro r env
    unfold Runner.run
    rcases env.isTerminal
    · exact runExec_preserves_running r env _
    · rcases env.makeRaw with _ | _
      · rfl
      · rcases env.getSize with _ | ⟨w, ht⟩
        · rfl
        · rcases env.requestPty with _ | _
          · rfl
          · exact runExec_preserves_running r env _
  · intro r res; cases res <;> rfl

/-- C9: when stdin is not a terminal, `Run` issues no pseudo-terminal
request and never enters raw mode. -/
theorem run_no_terminal_no_pty (r : Runner) (env : RunEnv)
    (h : env.isTerminal = false) :
    (r.run env).2.2.ptyRequested = none ∧
    (r.run env).2.2.rawModeEntered = false := by
  cases hr : env.runResult <;> simp [Runner.run, runExec, h, hr]

/-- Witness for C9: a batch invocation whose remote command exits 5. -/
theorem run_no_terminal_no_pty_witness :
    (sampleRunner.run envBatchExit5).2.2.ptyRequested = none ∧
    (sampleRunner.run envBatchExit5).2.2.rawModeEntered = false :=
  run_no_terminal_no_pty sampleRunner envBatchExit5 rfl

/-- C4 (code evaluation): with stdin an interactive terminal of size
120x40 and all setup calls succeeding, `Run` requests a pseudo-terminal
of type `xterm-256color` with the captured geometry, fixed 14400 baud
rates — and terminal mode `ECHO` mapped to `1` (echo enabled), not `0`. -/
theorem run_pty_request_echo_enabled :
    (sampleRunner.run envTerminalOk).2.2.ptyRequested =
      some { term := "xterm-256color", height := 40, width := 120,
             modes := [(ECHOCTL, 0), (ECHO, 1), (TTY_OP_ISPEED, 14400), (TTY_OP_OSPEED, 14400)] } ∧
    terminalModes.lookup ECHO = some 1 ∧ (1 : Nat) ≠ 0 :=
  ⟨rfl, rfl, by decide⟩

/-- When `Run` reaches the `session.Run` call (stdin not a terminal, or
all three terminal-setup calls succeed), its outcome is `runExec`'s for
some side-effect trace. -/
theorem run_reaches_runExec (r : Runner) (env : RunEnv)
    (h : reachesExec env = true) : ∃ eff, r.run env = runExec r env eff := by
  unfold reachesExec at h
  unfold Runner.run
  rcases hit : env.isTerminal
  · exact ⟨⟨false, false, none⟩, rfl⟩
  · rw [hit] at h
    simp only [if_true, Bool.and_eq_true] at h
    obtain ⟨⟨h1, h2⟩, h3⟩ := h
    rcases hm : env.makeRaw with e1 | u1
    · rw [hm] at h1; simp [exceptOk] at h1
    · rcases hg : env.getSize with e2 | wh
      · rw [hg] at h2; simp [exceptOk] at h2
      · rcases hp : env.requestPty with e3 | u3
        · rw [hp] at h3; simp [exceptOk] at h3
        · exact ⟨_, rfl⟩

/-- C1 (amended): for every invocation of `Run` that reaches the remote
command execution: a remote exit with status `N` sets the session's exit
code to `N` (so `ExitCode()` returns `N`) and returns an `Error` envelope
whose `exitCode` equals `N`; a non-process-exit execution failure sets
the exit code to `-1` and returns an envelope with `exitCode = -1`; a
status-0 exit sets the exit code to `0` and returns `nil`. -/
theorem run_exit_code_classification (r : Runner) (env : RunEnv)
    (h : reachesExec env = true) :
    (∀ n msg, env.runResult = ExecResult.exitErr n msg →
      (r.run env).1.exitCode = (n : Int) ∧
      (r.run env).1.ExitCode = (n : Int) ∧
      ∃ e, (r.run env).2.1 = some (GoErr.envelope e) ∧ e.exitCode = (n : Int)) ∧
    (∀ msg, env.runResult = ExecResult.otherErr msg →
      (r.run env).1.exitCode = -1 ∧
      ∃ e, (r.run env).2.1 = some (GoErr.envelope e) ∧ e.exitCode = -1) ∧
    (env.runResult = ExecResult.success →
      (r.run env).1.exitCode = 0 ∧ (r.run env).2.1 = none) := by
  obtain ⟨eff, heq⟩ := run_reaches_runExec r env h
  rw [heq]
  unfold runExec
  refine ⟨?_, ?_, ?_⟩
  · intro n msg hr; rw [hr]; exact ⟨rfl, rfl, _, rfl, rfl⟩
  · intro msg hr; rw [hr]; exact ⟨rfl, _, rfl, rfl⟩
  · intro hr; rw [hr]; exact ⟨rfl, rfl⟩

/-- Witness for C1 at a batch invocation whose remote command exits 5. -/
theorem run_exit_code_classification_witness :
    (sampleRunner.run envBatchExit5).1.exitCode = (5 : Int) ∧
    (sampleRunner.run envBatchExit5).1.ExitCode = (5 : Int) ∧
    (∃ e, (sampleRunner.run envBatchExit5).2.1 = some (GoErr.envelope e) ∧
      e.exitCode = (5 : Int)) :=
  (run_exit_code_classification sampleRunner envBatchExit5 rfl).1
    5 "Process exited with status 5" rfl

/-- C1 counterexample: when stdin is a terminal and `terminal.MakeRaw`
fails, `Run` fails for a non-process-exit cause but returns the raw
underlying error — not an `Error` envelope — and leaves the exit code at
its prior value `7` instead of setting it to `-1`. -/
theorem run_setup_failure_keeps_exit_code :
    (runner7.run envMakeRawFails).2.1 = some (GoErr.raw "makeraw failed") ∧
    (∀ e, GoErr.raw "makeraw failed" ≠ GoErr.envelope e) ∧
    (runner7.run envMakeRawFails).1.exitCode = 7 ∧ (7 : Int) ≠ -1 :=
  ⟨rfl, fun e h => GoErr.noConfusion h, rfl, by decide⟩

/-- C2 (amended): every failure of `New`, `StdoutPipe`, `StderrPipe`,
`Start` and `Wait`, and every failure of `Run` at or after the remote
execution step, surfaces as an `Error` envelope; `Close` returns `nil`,
discarding its sub-failures.  (`Run`'s terminal-setup failures are the
exception: they return the raw underlying error.) -/
theorem failures_return_error_envelope :
    (∀ (conn : ConnInput) (s : Script) (env : NewEnv) (g : GoErr),
      (New conn s env).err = some g → ∃ e, g = GoErr.envelope e) ∧
    (∀ (r : Runner) (p : Except String Unit) (g : GoErr),
      (r.stdoutPipe p).2 = some g → ∃ e, g = GoErr.envelope e) ∧
    (∀ (r : Runner) (p : Except String Unit) (g : GoErr),
      (r.stderrPipe p).2 = some g → ∃ e, g = GoErr.envelope e) ∧
    (∀ (r : Runner) (res : Except String Unit) (g : GoErr),
      (r.start res).2 = some g → ∃ e, g = GoErr.envelope e) ∧
    (∀ (r : Runner) (res : ExecResult) (g : GoErr),
      (r.wait res).2 = some g → ∃ e, g = GoErr.envelope e) ∧
    (∀ (r : Runner) (env : RunEnv) (g : GoErr), reachesExec env = true →
      (r.run env).2.1 = some g → ∃ e, g = GoErr.envelope e) ∧
    (∀ (r : Runner) (env : CloseEnv), (r.close env).2 = none) := by
  refine ⟨?_, ?_, ?_, ?_, ?_, ?_, fun r env => rfl⟩
  · intro conn s env g h
    rcases New_shape conn s env with ⟨r, _, he⟩ | ⟨e, _, he, _⟩
    · rw [he] at h; cases h
    · rw [he] at h; injection h with h2; exact ⟨e, h2.symm⟩
  · intro r p g h
    cases p with
    | error e => injection h with h2; exact ⟨_, h2.symm⟩
    | ok u => cases h
  · intro r p g h
    cases p with
    | error e => injection h with h2; exact ⟨_, h2.symm⟩
    | ok u => cases h
  · intro r res g h
    cases res with
    | error e => injection h with h2; exact ⟨_, h2.symm⟩
    | ok u => cases h
  · intro r res g h
    cases res with
    | success => cases h
    | exitErr n msg => injection h with h2; exact ⟨_, h2.symm⟩
    | otherErr msg => injection h with h2; exact ⟨_, h2.symm⟩
  · intro r env g hre h
    obtain ⟨eff, heq⟩ := run_reaches_runExec r env hre
    rw [heq] at h
    unfold runExec at h
    cases hr : env.runResult <;> rw [hr] at h
    · cases h
    · injection h with h2; exact ⟨_, h2.symm⟩
    · injection h with h2; exact ⟨_, h2.symm⟩

/-- Witness for C2: a failing `Start` yields exactly the envelope. -/
theorem failures_return_error_envelope_witness :
    ∃ e, GoErr.envelope ⟨sampleScript, "powershell.exe body", -1,
      "[golang-exec/runner/ssh/Start()] cannot start runner: channel closed\n"⟩ =
      GoErr.envelope e :=
  failures_return_error_envelope.2.2.2.1 sampleRunner (Except.error "channel closed")
    (GoErr.envelope ⟨sampleScript, "powershell.exe body", -1,
      "[golang-exec/runner/ssh/Start()] cannot start runner: channel closed\n"⟩) rfl

/-- C2 counterexample: when stdin is a terminal and `terminal.GetSize`
fails, `Run` fails but returns the raw underlying error, which is not an
`Error` envelope. -/
theorem run_getsize_failure_raw_error :
    (sampleRunner.run envGetSizeFails).2.1 = some (GoErr.raw "getsize failed") ∧
    (∀ e, GoErr.raw "getsize failed" ≠ GoErr.envelope e) :=
  ⟨rfl, fun _ h => GoErr.noConfusion h⟩

/-- A key outside the six recognised names leaves the accumulator of the
`toConnection` map loop untouched. -/
theorem connStep_unknown (c : Connection) (k v : String)
    (hk : k ∉ connectionKeys) : connStep c (k, v) = c := by
  simp only [connectionKeys, List.mem_cons, List.not_mem_nil, or_false, not_or] at hk
  unfold connStep
  split <;> simp_all

/-- C6: map-form normalization is total with fail-closed defaults —
unknown keys are ignored, an unparsable `Port` (not an unsigned base-10
integer of at most 16 bits) becomes `0`, an unparsable `Insecure` becomes
`false`, and the `Port`/`Insecure` fields of the result are exactly the
parses of the corresponding map values. -/
theorem map_normalization_total_defaults :
    (∀ (pre post : List (String × String)) (k v : String),
      k ∉ connectionKeys →
      toConnectionMap (pre ++ (k, v) :: post) = toConnectionMap (pre ++ post)) ∧
    (∀ s : String, parseUint16 s = none → parsePort s = 0) ∧
    (∀ s : String, parseBoolLower s = none → parseInsecure s = false) ∧
    (∀ (kvs : List (String × String)) (s : String),
      (toConnectionMap (kvs ++ [("Port", s)])).Port = parsePort s) ∧
    (∀ (kvs : List (String × String)) (s : String),
      (toConnectionMap (kvs ++ [("Insecure", s)])).Insecure = parseInsecure s) := by
  refine ⟨?_, ?_, ?_, ?_, ?_⟩
  · intro pre post k v hk
    unfold toConnectionMap
    rw [List.foldl_append, List.foldl_append, List.foldl_cons,
      connStep_unknown _ k v hk]
  · intro s h; simp [parsePort, h]
  · intro s h; simp [parseInsecure, h]
  · intro kvs s
    unfold toConnectionMap
    rw [List.foldl_append]
    rfl
  · intro kvs s
    unfold toConnectionMap
    rw [List.foldl_append]
    rfl

/-- Witness for C6: an unknown key `Color` is ignored; `Port` value
`"70000"` (over 16 bits) degrades to `0`; `Insecure` value `"yes"`
(rejected by `ParseBool`) degrades to `false`. -/
theorem map_normalization_total_defaults_witness :
    toConnectionMap ([("Host", "h")] ++ ("Color", "red") :: [("Port", "22")]) =
      toConnectionMap ([("Host", "h")] ++ [("Port", "22")]) ∧
    parsePort "70000" = 0 ∧
    parseInsecure "yes" = false :=
  ⟨map_normalization_total_defaults.1 [("Host", "h")] [("Port", "22")] "Color" "red"
      (by decide),
   map_normalization_total_defaults.2.1 "70000" rfl,
   map_normalization_total_defaults.2.2.1 "yes" rfl⟩

/-- C7: a struct-form descriptor and a map-form descriptor carrying the
same logical field values (the map's `Port` string parses to the struct's
port, its `Insecure` string parses to the struct's flag, the other four
fields are the same strings) normalize to identical `Connection`
values. -/
theorem struct_map_normalization_agree (c : Connection) (ps istr : String)
    (hport : c.Port < 65536)
    (hps : parsePort ps = c.Port) (his : parseInsecure istr = c.Insecure) :
    toConnection (ConnInput.struct c) =
    toConnection (ConnInput.map
      [("Type", c.Typ), ("Host", c.Host), ("Port", ps),
       ("User", c.User), ("Password", c.Password), ("Insecure", istr)]) := by
  rcases c with ⟨t, ho, po, us, pw, insec⟩
  show Connection.mk t ho (po % 65536) us pw insec =
    Connection.mk t ho (parsePort ps) us pw (parseInsecure istr)
  rw [hps, his, Nat.mod_eq_of_lt hport]

/-- Witness for C7 at concrete matching descriptors (`"True"` also
exercises the case-insensitive boolean parse). -/
theorem struct_map_normalization_agree_witness :
    toConnection (ConnInput.struct sampleConnection) =
    toConnection (ConnInput.map
      [("Type", "ssh"), ("Host", "host1"), ("Port", "22"),
       ("User", "admin"), ("Password", "pw"), ("Insecure", "True")]) :=
  struct_map_normalization_agree sampleConnection "22" "True" (by decide) rfl rfl

end GolangExec
